import Mathlib

/-!
# Verification of sketchybartender's core against its specification

Shallow embedding of the Rust sources of `sketchybartender`:

* `MachClient` — `src/mach_client.rs` (low-level transport: command encoding,
  cached destination port handle).
* `Aerospace` — `src/aerospace.rs` (window-manager snapshot reader and its
  staleness retry loop).
* `MonitorMap` — `src/monitor_map.rs` (display-mapper name join).
* `Handlers` — `src/handlers.rs` (reconciliation engine: debounce gate,
  display-id swap, clear-set diff, per-display batches).
* `MainVariant` — `src/main.rs` (the historical variant of the reconciliation
  engine whose per-workspace four-way classification and display-1 fallback
  the spec describes).

Rust byte values are modelled as `Nat`, machine integers as `Nat` (no
arithmetic in the embedded code ever overflows a `u32`), `HashSet`/`HashMap`
contents as lists whose iteration order stands in for the map's unspecified
order; all properties proved about them are order-independent or are stated
on the list model directly.
-/

namespace MachClient

/-- One iteration of the byte loop of `format_message` (mach_client.rs,
lines 96-119).  The accumulator carries the output bytes built so far and the
current quote state (`0` = outside quotes, otherwise the opening quote byte).
Byte 34 is the double quote, 39 the single quote, 32 the space. -/
def format_step (acc : List Nat × Nat) (b : Nat) : List Nat × Nat :=
  let formatted := acc.1
  let quote := acc.2
  if b = 34 ∨ b = 39 then
    if quote = b then (formatted, 0)
    else if quote = 0 then (formatted, b)
    else (formatted ++ [b], quote)
  else if b = 32 ∧ quote = 0 then (formatted ++ [0], quote)
  else (formatted ++ [b], quote)

/-- `format_message` (mach_client.rs, lines 91-131): run the byte loop over
the message, then — if the result has more than one byte and ends in two
consecutive null bytes — pop one of them, and finally append the null
terminator. -/
def format_message (msg : List Nat) : List Nat :=
  let formatted := (msg.foldl format_step ([], 0)).1
  let popped :=
    if 1 < formatted.length ∧ formatted.getLast? = some 0 ∧
        formatted.dropLast.getLast? = some 0 then
      formatted.dropLast
    else formatted
  popped ++ [0]

/-- Modelled from the spec: the claimed encoding replaces each space outside
quoted segments by a null byte, keeps spaces inside quotes, drops the quote
characters themselves, and ends with a null terminator.  Written as a direct
structural scan so it can be compared with the source's fold. -/
def encode_scan (quote : Nat) : List Nat → List Nat
  | [] => []
  | b :: rest =>
    if b = 34 ∨ b = 39 then
      if quote = b then encode_scan 0 rest
      else if quote = 0 then encode_scan b rest
      else b :: encode_scan quote rest
    else if b = 32 ∧ quote = 0 then 0 :: encode_scan quote rest
    else b :: encode_scan quote rest

/-- Modelled from the spec: the whole claimed encoding (scan plus final null
terminator, with no collapsing of trailing separators). -/
def encode_claim (msg : List Nat) : List Nat :=
  encode_scan 0 msg ++ [0]

/-- Bytes of a Rust string (all commands involved are ASCII). -/
def strBytes (s : String) : List Nat :=
  s.data.map Char.toNat

/-- Outcome of one `send_message` call (mach_client.rs, lines 134-241),
abstracting the kernel interaction: the send can fail, the receive can time
out (1s bound), the receive can fail for another reason, or a reply
(possibly absent/unparseable, hence `Option`) comes back. -/
inductive SendOutcome where
  | sendFailure (kr : Int)
  | recvTimeout
  | recvFailure (kr : Int)
  | reply (r : Option String)
deriving DecidableEq

/-- Result `send_message` returns for each outcome: send failures and
non-timeout receive failures are errors; a receive timeout is success with
no reply (mach_client.rs, lines 189-217). -/
def send_message_result : SendOutcome → Except String (Option String)
  | SendOutcome.sendFailure _ => Except.error "Failed to send message"
  | SendOutcome.recvTimeout => Except.ok none
  | SendOutcome.recvFailure _ => Except.error "Failed to receive response"
  | SendOutcome.reply r => Except.ok r

/-- `sketchybar` (mach_client.rs, lines 244-262) as a transition on the
cached-port state `MACH_PORT : Option port`: if a port is cached use it,
otherwise look one up (`get_sketchybar_port`, modelled by its result) and
cache it on success; then deliver and return `send_message`'s result.  The
function returns the new cache state together with the call's result.  No
branch of the source ever clears the cache. -/
def sketchybar (cache : Option Nat) (lookup : Except String Nat)
    (outcome : SendOutcome) : Option Nat × Except String (Option String) :=
  match cache with
  | some port => (some port, send_message_result outcome)
  | none =>
    match lookup with
    | Except.error e => (none, Except.error e)
    | Except.ok port => (some port, send_message_result outcome)

/-- `reset_port` (mach_client.rs, lines 265-268): clear the cached port. -/
def reset_port (_cache : Option Nat) : Option Nat :=
  (none : Option Nat)





end MachClient

namespace Aerospace

/-- `WindowInfo` (aerospace.rs, lines 7-18): one window as reported by the
window manager's JSON window listing. -/
structure WindowInfo where
  app_name : String
  workspace : String
  workspace_is_focused : Bool
  workspace_is_visible : Bool
  display_id : Nat
deriving DecidableEq

/-- Possible outcomes of spawning the window-manager listing process inside
`get_windows` (aerospace.rs, lines 35-56): the spawn itself can fail, or the
process exits with a success flag and a stdout that either parses as a JSON
window list or does not. -/
inductive GetWindowsOutcome where
  | spawn_error
  | exited (success : Bool) (parsed : Option (List WindowInfo))
deriving DecidableEq

/-- `get_windows` (aerospace.rs, lines 35-56): a spawn failure returns the
empty list, a non-zero exit status returns the empty list, and a JSON parse
failure falls back to the default empty list (`unwrap_or_default`). -/
def get_windows : GetWindowsOutcome → List WindowInfo
  | GetWindowsOutcome.spawn_error => []
  | GetWindowsOutcome.exited success parsed =>
    if success = false then []
    else
      match parsed with
      | some ws => ws
      | none => []

/-- Which retry rule fired in one iteration of `get_workspace_infos`'s retry
loop: `staleEmpty` is the "all windows disappeared" rule, `noFocus` the
"windows exist but none is focused" rule. -/
inductive RetryReason where
  | staleEmpty
  | noFocus
deriving DecidableEq

/-- The `needs_retry` decision of one loop iteration (aerospace.rs, lines
124-137), instrumented to report which rule fired.  Branch order mirrors the
source: first the `retry_count == 0 && initial_window_count > 0 &&
windows.is_empty()` rule, then the focused-workspace check (no retry), then
the nonempty-but-unfocused rule, else no retry. -/
def retry_reason (retry_count initial_count : Nat)
    (windows : List WindowInfo) : Option RetryReason :=
  if retry_count = 0 ∧ 0 < initial_count ∧ windows.isEmpty then
    some RetryReason.staleEmpty
  else if windows.any (fun w => w.workspace_is_focused) then
    none
  else if windows.isEmpty then
    none
  else
    some RetryReason.noFocus

/-- The retry loop of `get_workspace_infos` (aerospace.rs, lines 115-149).
`reads k` is the window list the `k`-th call of `get_windows` returns inside
this one snapshot-read call (`reads 0` is the initial read).  The fuel
argument is `max_retries - retry_count` (the loop guard `retry_count <
max_retries`); the trace records each retry rule that fired.  Returns the
number of retries performed, the accepted window list, and the trace. -/
def run_retries (reads : Nat → List WindowInfo) (initial_count : Nat) :
    Nat → Nat → List WindowInfo → List RetryReason →
    Nat × List WindowInfo × List RetryReason
  | retry_count, 0, windows, trace => (retry_count, windows, trace)
  | retry_count, fuel + 1, windows, trace =>
    match retry_reason retry_count initial_count windows with
    | none => (retry_count, windows, trace)
    | some r =>
      run_retries reads initial_count (retry_count + 1) fuel
        (reads (retry_count + 1)) (trace ++ [r])

/-- The retry phase of `get_workspace_infos` (aerospace.rs, lines 112-149):
`initial_window_count` is the length of the first read, `max_retries = 2`. -/
def get_workspace_infos_retry (reads : Nat → List WindowInfo) :
    Nat × List WindowInfo × List RetryReason :=
  run_retries reads (reads 0).length 0 2 (reads 0) []

/-- `WorkspaceInfo` (aerospace.rs, lines 21-31): one workspace as assembled
by `get_workspace_infos` from the grouped window records. -/
structure WorkspaceInfo where
  id : String
  apps : List String
  icons : String
  is_focused : Bool
  display_id : Nat
deriving DecidableEq

/-- A concrete window used in counterexample runs. -/
def wUnfocused : WindowInfo :=
  { app_name := "AppX", workspace := "1", workspace_is_focused := false,
    workspace_is_visible := true, display_id := 1 }

/-- Concrete read sequence: the first read returns one (unfocused) window,
every later read returns no windows. -/
def staleReads : Nat → List WindowInfo :=
  fun n => if n = 0 then [wUnfocused] else []


end Aerospace

namespace MonitorMap

/-- `build_mappings` (monitor_map.rs, lines 64-91): join the three partial
mappings through matching display names.  `sbMap` is the renderer's
display-id → OS-display-id map, `nsMap` the OS-display-id → display-name map,
`aeroMap` the window-manager monitor-id → display-name map.  For each
renderer display id, look its OS display id up in `nsMap`; if a name is
found, take the first monitor in `aeroMap` carrying that name (the source's
inner loop breaks on the first match) and record the pair; entries that fail
either lookup are skipped.  Hash maps are modelled as association lists with
distinct keys; iteration order stands in for the maps' unspecified order. -/
def build_mappings (sbMap : List (Nat × Nat)) (nsMap : List (Nat × String))
    (aeroMap : List (Nat × String)) : List (Nat × Nat) :=
  sbMap.filterMap (fun p =>
    ((nsMap.find? (fun q => q.1 == p.2)).map (fun q => q.2)).bind
      (fun name =>
        (aeroMap.find? (fun q => q.2 == name)).map (fun q => (p.1, q.1))))

/-- Per-workspace display resolution of the main.rs reconciliation variant
(main.rs, lines 229-298): scan the mapping for an entry whose monitor id
matches the workspace's monitor; if one exists the workspace is rendered on
that entry's display id, otherwise on the fallback display 1. -/
def workspace_display (mappings : List (Nat × Nat))
    (workspace_monitor : Nat) : Nat :=
  match mappings.find? (fun p => p.2 == workspace_monitor) with
  | some p => p.1
  | none => 1




end MonitorMap

namespace Handlers

/-- The color fields of `Config` (config.rs) that the workspace renderer of
handlers.rs reads. -/
structure Config where
  workspace_focused_label_color : String
  workspace_unfocused_label_color : String
  workspace_focused_icon_color : String
  workspace_unfocused_icon_color : String
  workspace_bg_color : String
  border_active_color : String
deriving DecidableEq

/-- `DaemonState` (handlers.rs, lines 202-212): the shared daemon state
guarded by the single mutex.  Timestamps are modelled as natural numbers in
milliseconds; the previous-workspace `HashSet` as a duplicate-free list. -/
structure DaemonState where
  front_app : String
  last_workspace_change : Option Nat
  previous_workspaces : List String
  config : Config
deriving DecidableEq

/-- The manual display mapping of `handle_workspace_refresh` (handlers.rs,
lines 464-471): swap display 2 with display 3, leave all others alone. -/
def swap_display (d : Nat) : Nat :=
  if d = 2 then 3 else if d = 3 then 2 else d

/-- The in-place mutation the swap loop applies to one workspace record. -/
def swap_info (i : Aerospace.WorkspaceInfo) : Aerospace.WorkspaceInfo :=
  { i with display_id := swap_display i.display_id }

/-- `format_workspace_label` (handlers.rs, lines 420-426). -/
def format_workspace_label (ws_id : String) (has_icon : Bool) : String :=
  if has_icon then "[" ++ ws_id ++ "]" else " [" ++ ws_id ++ "]"

/-- One `--set` directive queued on a display's batch: the display whose
batch receives it, the target item, and the ordered property list. -/
structure Directive where
  display : Nat
  item : String
  props : List (String × String)
deriving DecidableEq

/-- The property list of one workspace's render directive
(handlers.rs, lines 524-555).  `position` is the workspace's index in the
sorted bar order; `gradient_colors` is the list
`get_workspace_gradient_colors` produces from the configuration (its
floating-point color interpolation lies outside the embedded claims, so the
list is taken as an input). -/
def render_settings (config : Config) (gradient_colors : List String)
    (position : Nat) (info : Aerospace.WorkspaceInfo) :
    List (String × String) :=
  let has_apps := !info.apps.isEmpty
  let is_focused := info.is_focused
  let label_color := if is_focused then config.workspace_focused_label_color
    else config.workspace_unfocused_label_color
  let icon_color := if is_focused then config.workspace_focused_icon_color
    else config.workspace_unfocused_icon_color
  let icon_value := if has_apps then info.icons else ""
  let icon_drawing := if has_apps then "on" else "off"
  let background_drawing := if is_focused then "on" else "off"
  [("label", format_workspace_label info.id has_apps),
   ("label.color", label_color),
   ("icon", icon_value),
   ("icon.color", icon_color),
   ("icon.drawing", icon_drawing),
   ("drawing", "on"),
   ("background.drawing", background_drawing),
   ("display", toString info.display_id)] ++
  (if is_focused then
     [("background.color",
       gradient_colors.getD (position % gradient_colors.length) "")]
   else [])

/-- Insertion of one id into a sorted id list, by the renderer's
lexicographic string order. -/
def ins_sorted (a : String) : List String → List String
  | [] => [a]
  | b :: rest =>
    if (compare a b).isLE then a :: b :: rest else b :: ins_sorted a rest

/-- `sorted_ws_ids.sort()` (handlers.rs, lines 511-512): stable sort of the
workspace ids, modelled as insertion sort (the ids are distinct map keys, so
any correct sort produces the same list as Rust's stable sort). -/
def sort_ids : List String → List String
  | [] => []
  | a :: rest => ins_sorted a (sort_ids rest)

/-- The render phase of `handle_workspace_refresh` (handlers.rs, lines
510-563): walk the workspace ids in sorted bar order with their positions,
look each workspace's record up, and queue one render directive on the batch
of that record's display. -/
def render_directives (config : Config) (gradient_colors : List String)
    (infos : List Aerospace.WorkspaceInfo) : List Directive :=
  let sortedIds := sort_ids ((infos.map (fun i => i.id)).dedup)
  sortedIds.enum.filterMap (fun pws =>
    match infos.find? (fun i => i.id == pws.2) with
    | some info =>
      some { display := info.display_id, item := "workspace." ++ pws.2,
             props := render_settings config gradient_colors pws.1 info }
    | none => none)

/-- The clear phase of `handle_workspace_refresh` (handlers.rs, lines
498-508): for every workspace id to clear and every display of the pass,
queue a hide directive on that display's batch. -/
def clear_directives (all_displays : List Nat) (to_clear : List String) :
    List Directive :=
  to_clear.flatMap (fun ws =>
    all_displays.map (fun d =>
      { display := d, item := "workspace." ++ ws,
        props := [("drawing", "off"), ("display", toString d)] }))

/-- Everything one non-debounced reconciliation pass emits: the clear set,
the queued clear and render directives, and the per-display execute results
(one `execute` per display that has a batch). -/
structure PassOutput where
  to_clear : List String
  clears : List Directive
  renders : List Directive
  exec_results : List (Nat × Bool)
deriving DecidableEq

/-- The body of `handle_workspace_refresh` after the debounce gate
(handlers.rs, lines 451-570).  `temp_infos` is the first snapshot read (used
only for the display census), `infos` the second; `exec` gives each
display's `execute` outcome.  The previous-workspace set is replaced by the
current one when the state lock is taken, before any batch is built or
executed; the execute outcomes are only recorded in the output, never in the
state. -/
def do_pass (s : DaemonState) (gradient_colors : List String)
    (temp_infos infos : List Aerospace.WorkspaceInfo) (exec : Nat → Bool) :
    DaemonState × Option PassOutput :=
  let all_displays := (temp_infos.map (fun i => i.display_id)).dedup
  let infos2 := infos.map swap_info
  let current_workspaces := (infos2.map (fun i => i.id)).dedup
  let s2 := { s with previous_workspaces := current_workspaces }
  let to_clear := s.previous_workspaces.filter
    (fun w => !(current_workspaces.contains w))
  let clears := clear_directives all_displays to_clear
  let renders := render_directives s.config gradient_colors infos2
  let displays := ((clears ++ renders).map (fun d => d.display)).dedup
  (s2, some { to_clear := to_clear, clears := clears, renders := renders,
              exec_results := displays.map (fun d => (d, exec d)) })

/-- `handle_workspace_refresh` (handlers.rs, lines 428-570): the debounce
gate compares `now` against the last-accepted-change timestamp under the
state lock; under 100 ms the event is dropped with the state untouched,
otherwise `now` is recorded as last accepted and the pass body runs. -/
def handle_workspace_refresh (s : DaemonState) (now : Nat)
    (gradient_colors : List String)
    (temp_infos infos : List Aerospace.WorkspaceInfo) (exec : Nat → Bool) :
    DaemonState × Option PassOutput :=
  match s.last_workspace_change with
  | some last_change =>
    if now - last_change < 100 then (s, none)
    else
      do_pass { s with last_workspace_change := some now } gradient_colors
        temp_infos infos exec
  | none =>
    do_pass { s with last_workspace_change := some now } gradient_colors
      temp_infos infos exec

end Handlers

namespace MainVariant

/-- The per-workspace classification of the main.rs reconciliation variant
(main.rs, lines 234-288; the fallback arm at lines 300-354 repeats the same
four branches with display `"1"`, so both arms share this function with the
display string as a parameter).  Inputs are the workspace id, the
`(has_apps, is_focused)` pair, the icon string, the rotated background
color, the single-monitor flag, and the display id string; the result is the
ordered property list of the one `--set` directive emitted. -/
def classify_workspace (is_single_monitor : Bool) (ws_id : String)
    (has_apps is_focused : Bool) (icons : String) (bg_color : String)
    (display_str : String) : List (String × String) :=
  if has_apps ∧ is_focused then
    [("label", ws_id),
     ("label.color", "0xff1d2021"),
     ("icon", icons),
     ("icon.color", "0xff1d2021"),
     ("icon.drawing", "on"),
     ("drawing", "on"),
     ("background.drawing", "on"),
     ("background.color", bg_color),
     ("display", display_str)]
  else if has_apps then
    [("label", ws_id),
     ("label.color", "0xffffffff"),
     ("icon.color", "0xffffffff"),
     ("icon", icons),
     ("icon.drawing", "on"),
     ("drawing", "on"),
     ("background.drawing", "off"),
     ("display", display_str)]
  else if is_focused then
    [("label", " " ++ ws_id),
     ("label.color", "0xff1d2021"),
     ("icon.color", "0xff1d2021"),
     ("drawing", "on"),
     ("icon.drawing", "off"),
     ("background.drawing", "on"),
     ("background.color", bg_color),
     ("display", display_str)]
  else if is_single_monitor then
    [("drawing", "off"),
     ("display", display_str)]
  else
    [("label", " " ++ ws_id),
     ("label.color", "0xffffffff"),
     ("icon.color", "0xffffffff"),
     ("drawing", "on"),
     ("icon.drawing", "off"),
     ("background.drawing", "off"),
     ("display", display_str)]

/-- Rotating background color for workspace `i` (main.rs, lines 219-225):
workspaces 1,4,7 blue, 2,5,8 pink, 3,6,9 green. -/
def bg_color_for (i : Nat) : String :=
  if i % 3 = 1 then "0xff83a598"
  else if i % 3 = 2 then "0xffd3869b"
  else "0xff8ec07c"



end MainVariant

namespace Handlers

/-- Concrete configuration for witness runs. -/
def cfgW : Config :=
  { workspace_focused_label_color := "0xffF1"
    workspace_unfocused_label_color := "0xffU1"
    workspace_focused_icon_color := "0xffF2"
    workspace_unfocused_icon_color := "0xffU2"
    workspace_bg_color := "0xffBG"
    border_active_color := "0xffBA" }

/-- Concrete daemon state for witness runs: no accepted change yet, one
previously rendered workspace "9". -/
def sW : DaemonState :=
  { front_app := ""
    last_workspace_change := none
    previous_workspaces := ["9"]
    config := cfgW }

/-- Concrete snapshot for witness runs: one focused workspace "1" holding
one window, reported on display 2. -/
def infosW : List Aerospace.WorkspaceInfo :=
  [{ id := "1", apps := ["AppX"], icons := "X", is_focused := true,
     display_id := 2 }]

/-- Concrete gradient-color list for witness runs. -/
def gcsW : List String := ["0xffAA"]

/-- The pass output the handler produces on the witness inputs: workspace
"9" is cleared on display 2 (the census display), workspace "1" is rendered
on display 3 (the swap of its snapshot display 2), and both displays'
batches execute. -/
def poW : PassOutput :=
  { to_clear := ["9"]
    clears := [{ display := 2, item := "workspace.9",
                 props := [("drawing", "off"), ("display", "2")] }]
    renders := [{ display := 3, item := "workspace.1",
                  props := [("label", "[1]"),
                            ("label.color", "0xffF1"),
                            ("icon", "X"),
                            ("icon.color", "0xffF2"),
                            ("icon.drawing", "on"),
                            ("drawing", "on"),
                            ("background.drawing", "on"),
                            ("display", "3"),
                            ("background.color", "0xffAA")] }]
    exec_results := [(2, true), (3, true)] }

/-- The single render directive of the witness pass. -/
def dW : Directive :=
  { display := 3, item := "workspace.1",
    props := [("label", "[1]"),
              ("label.color", "0xffF1"),
              ("icon", "X"),
              ("icon.color", "0xffF2"),
              ("icon.drawing", "on"),
              ("drawing", "on"),
              ("background.drawing", "on"),
              ("display", "3"),
              ("background.color", "0xffAA")] }

end Handlers

section Theorems

/-- The fold of `format_step` over the message bytes produces exactly the
accumulated prefix followed by the structural scan of the remaining bytes. -/
theorem MachClient.foldl_format_step (msg : List Nat) :
    ∀ (quote : Nat) (acc : List Nat),
      (msg.foldl MachClient.format_step (acc, quote)).1 =
        acc ++ MachClient.encode_scan quote msg := by
  induction msg with
  | nil => intro q acc; simp [MachClient.encode_scan]
  | cons b rest ih =>
    intro q acc
    simp only [List.foldl_cons]
    by_cases hb : b = 34 ∨ b = 39
    · by_cases hq : q = b
      · simp [MachClient.format_step, MachClient.encode_scan, hb, hq, ih]
      · by_cases hq0 : q = 0
        · subst hq0
          simp [MachClient.format_step, MachClient.encode_scan, hb, hq, ih]
        · simp [MachClient.format_step, MachClient.encode_scan, hb, hq, hq0, ih,
            List.append_assoc]
    · by_cases hs : b = 32 ∧ q = 0
      · simp [MachClient.format_step, MachClient.encode_scan, hb, hs, ih,
          List.append_assoc]
      · simp [MachClient.format_step, MachClient.encode_scan, hb, hs, ih,
          List.append_assoc]

/-- C6 (amended): the low-level encoding agrees with the spec's scan —
spaces outside quotes become null bytes, spaces inside quotes survive, quote
characters are stripped — except that a trailing pair of null bytes in the
scanned result is collapsed to one before the final null terminator is
appended; the claim's concrete example holds exactly. -/
theorem MachClient.format_message_refines_scan :
    (∀ msg : List Nat,
      MachClient.format_message msg =
        (if 1 < (MachClient.encode_scan 0 msg).length ∧
            (MachClient.encode_scan 0 msg).getLast? = some 0 ∧
            (MachClient.encode_scan 0 msg).dropLast.getLast? = some 0 then
          (MachClient.encode_scan 0 msg).dropLast
         else MachClient.encode_scan 0 msg) ++ [0])
    ∧ MachClient.format_message
        (MachClient.strBytes "--set item label=\"hello world\"") =
      MachClient.strBytes "--set\x00item\x00label=hello world\x00" := by
  constructor
  · intro msg
    have h := MachClient.foldl_format_step msg 0 []
    simp only [MachClient.format_message, h, List.nil_append]
  · decide

/-- C6 counterexample: on a command consisting of two spaces the source
encoding and the claim's per-byte description disagree — the source
collapses the trailing pair of separators. -/
theorem MachClient.format_message_trailing_spaces :
    (MachClient.format_message [32, 32] ==
      MachClient.encode_claim [32, 32]) = false
    ∧ MachClient.format_message [32, 32] = [0, 0]
    ∧ MachClient.encode_claim [32, 32] = [0, 0, 0] := by decide

/-- C5 counterexample: a delivery that fails with a send failure (and one
that fails with a non-timeout receive failure) returns its error while the
cached destination port is still populated — the cache is not invalidated
before the call returns. -/
theorem MachClient.cache_kept_on_failure :
    (MachClient.sketchybar (some 5) (Except.ok 5)
        (MachClient.SendOutcome.sendFailure 1)).1 = some 5
    ∧ (MachClient.sketchybar (some 5) (Except.ok 5)
        (MachClient.SendOutcome.sendFailure 1)).2 =
      Except.error "Failed to send message"
    ∧ (MachClient.sketchybar (some 5) (Except.ok 5)
        (MachClient.SendOutcome.recvFailure 1)).1 = some 5 := by
  refine ⟨rfl, rfl, rfl⟩

/-- C5 (amended): the cached destination port's evolution across a delivery
is independent of the delivery outcome — no failure invalidates it; a
receive timeout is reported as success whenever a port was available; the
only invalidation the module offers is the explicit `reset_port`, which no
caller invokes. -/
theorem MachClient.cache_independent_of_delivery :
    (∀ (cache : Option Nat) (lookup : Except String Nat)
        (o1 o2 : MachClient.SendOutcome),
      (MachClient.sketchybar cache lookup o1).1 =
        (MachClient.sketchybar cache lookup o2).1)
    ∧ (∀ (p : Nat) (lookup : Except String Nat),
        (MachClient.sketchybar (some p) lookup
            MachClient.SendOutcome.recvTimeout).2 = Except.ok none)
    ∧ (∀ p : Nat,
        (MachClient.sketchybar none (Except.ok p)
            MachClient.SendOutcome.recvTimeout).2 = Except.ok none)
    ∧ (∀ cache : Option Nat, MachClient.reset_port cache = none) := by
  refine ⟨?_, ?_, ?_, ?_⟩
  · intro cache lookup o1 o2
    cases cache with
    | some p => rfl
    | none => cases lookup with
      | error e => rfl
      | ok p => rfl
  · intro p lookup; rfl
  · intro p; rfl
  · intro cache; rfl

/-- C10: the window-list query is total over all process outcomes and never
surfaces an error — spawn failure, non-zero exit, and JSON parse failure all
yield the empty list, indistinguishable from a successful read of an empty
window list. -/
theorem Aerospace.get_windows_error_totality :
    Aerospace.get_windows Aerospace.GetWindowsOutcome.spawn_error = []
    ∧ (∀ p, Aerospace.get_windows (Aerospace.GetWindowsOutcome.exited false p)
        = [])
    ∧ Aerospace.get_windows (Aerospace.GetWindowsOutcome.exited true none) = []
    ∧ (∀ ws, Aerospace.get_windows
        (Aerospace.GetWindowsOutcome.exited true (some ws)) = ws)
    ∧ Aerospace.get_windows
        (Aerospace.GetWindowsOutcome.exited true (some [])) = [] := by
  exact ⟨rfl, fun _ => rfl, rfl, fun _ => rfl, rfl⟩

/-- On the loop's first iteration the windows under inspection are exactly
the initial read, so the "all windows disappeared" rule, which compares that
read's emptiness against its own length, can never fire there. -/
theorem Aerospace.retry_reason_first_read (w : List Aerospace.WindowInfo) :
    Aerospace.retry_reason 0 w.length w ≠ some Aerospace.RetryReason.staleEmpty := by
  unfold Aerospace.retry_reason
  split_ifs with h1 h2 h3
  · rcases h1 with ⟨-, hlen, hemp⟩
    rw [List.isEmpty_iff] at hemp
    subst hemp
    simp at hlen
  · simp
  · simp
  · simp

/-- On every later iteration the "all windows disappeared" rule is guarded
by `retry_count == 0` and cannot fire either. -/
theorem Aerospace.retry_reason_later (rc init : Nat)
    (w : List Aerospace.WindowInfo) :
    Aerospace.retry_reason (rc + 1) init w ≠
      some Aerospace.RetryReason.staleEmpty := by
  unfold Aerospace.retry_reason
  have hzero : ¬(rc + 1 = 0 ∧ 0 < init ∧ w.isEmpty = true) := by
    rintro ⟨hc, -, -⟩
    omega
  rw [if_neg hzero]
  split_ifs <;> simp

/-- C4: the claimed retry on a zero-window read following a non-zero read
never happens — for every read sequence the `staleEmpty` rule is absent from
the loop's trace (its guard compares the first read against itself and is
unsatisfiable), and on the concrete skew sequence (first read one unfocused
window, second read empty) the loop performs a single `noFocus` retry and
then accepts the empty data with no further retry. -/
theorem Aerospace.stale_empty_retry_never_fires :
    (∀ reads : Nat → List Aerospace.WindowInfo,
      ((Aerospace.get_workspace_infos_retry reads).2.2).contains
        Aerospace.RetryReason.staleEmpty = false)
    ∧ Aerospace.get_workspace_infos_retry Aerospace.staleReads =
        (1, [], [Aerospace.RetryReason.noFocus]) := by
  constructor
  · intro reads
    unfold Aerospace.get_workspace_infos_retry
    rcases h0 : Aerospace.retry_reason 0 (reads 0).length (reads 0) with _ | r0
    · simp [Aerospace.run_retries, h0]
    · have hr0 : r0 = Aerospace.RetryReason.noFocus := by
        cases r0
        · exact absurd h0 (Aerospace.retry_reason_first_read _)
        · rfl
      subst hr0
      rcases h1 : Aerospace.retry_reason 1 (reads 0).length (reads 1) with _ | r1
      · simp [Aerospace.run_retries, h0, h1]
      · have hr1 : r1 = Aerospace.RetryReason.noFocus := by
          cases r1
          · exact absurd h1 (Aerospace.retry_reason_later 0 _ _)
          · rfl
        subst hr1
        simp [Aerospace.run_retries, h0, h1]
  · decide

/-- C7: the display mapper's name join resolves the claim's concrete triple
of partial maps to exactly the mapping from renderer display 7 to
window-manager monitor 3. -/
theorem MonitorMap.name_join_example :
    MonitorMap.build_mappings [(7, 1)] [(1, "Built-in")] [(3, "Built-in")] =
      [(7, 3)] := by decide

/-- C8 counterexample: a renderer display id whose monitor cannot be
resolved is dropped from the built mapping — it is not mapped to the default
display 1. -/
theorem MonitorMap.unresolved_display_omitted :
    MonitorMap.build_mappings [(7, 1)] [] [] = []
    ∧ (MonitorMap.build_mappings [(7, 1)] [] []).find?
        (fun p => p.1 == 7) = none := by decide

/-- C8 (amended): the built DisplayMapping contains only renderer display
ids whose monitor resolves through the name join (unresolvable ids are
omitted); the fallback to the default display 1 happens later, in the
render step, where a workspace whose monitor matches no mapping entry is
rendered on display 1. -/
theorem MonitorMap.fallback_happens_in_render_step :
    (∀ (mappings : List (Nat × Nat)) (m : Nat),
      mappings.find? (fun p => p.2 == m) = none →
      MonitorMap.workspace_display mappings m = 1)
    ∧ (∀ (sbMap : List (Nat × Nat)) (nsMap : List (Nat × String))
        (aeroMap : List (Nat × String)) (p : Nat × Nat),
        p ∈ MonitorMap.build_mappings sbMap nsMap aeroMap →
        ∃ nsid name, (p.1, nsid) ∈ sbMap ∧ (nsid, name) ∈ nsMap ∧
          (p.2, name) ∈ aeroMap) := by
  constructor
  · intro mappings m h
    unfold MonitorMap.workspace_display
    rw [h]
  · intro sbMap nsMap aeroMap p hp
    unfold MonitorMap.build_mappings at hp
    rw [List.mem_filterMap] at hp
    obtain ⟨a, ha, hfa⟩ := hp
    cases hns : nsMap.find? (fun q => q.1 == a.2) with
    | none => rw [hns] at hfa; simp at hfa
    | some q =>
      rw [hns] at hfa
      simp only [Option.map_some', Option.some_bind] at hfa
      cases hae : aeroMap.find? (fun r => r.2 == q.2) with
      | none => rw [hae] at hfa; simp at hfa
      | some r =>
        rw [hae] at hfa
        simp only [Option.map_some', Option.some.injEq] at hfa
        have hq1 : q.1 = a.2 := by
          have := List.find?_some hns
          simpa using this
        have hqmem : q ∈ nsMap := List.mem_of_find?_eq_some hns
        have hr2 : r.2 = q.2 := by
          have := List.find?_some hae
          simpa using this
        have hrmem : r ∈ aeroMap := List.mem_of_find?_eq_some hae
        refine ⟨a.2, q.2, ?_, ?_, ?_⟩
        · have h1 : p.1 = a.1 := by rw [← hfa]
          rw [h1]
          exact ha
        · have : (a.2, q.2) = q := by
            rw [← hq1]
          rw [this]
          exact hqmem
        · have h2 : p.2 = r.1 := by rw [← hfa]
          have : (p.2, q.2) = r := by
            rw [h2, ← hr2]
          rw [this]
          exact hrmem

/-- Witness for C8's amended theorem at the concrete maps of the spec's
example plus an unmatched monitor id. -/
theorem MonitorMap.fallback_happens_in_render_step_witness :
    MonitorMap.workspace_display [((7 : Nat), (3 : Nat))] 5 = 1
    ∧ ∃ nsid name, ((7 : Nat), nsid) ∈ [((7 : Nat), (1 : Nat))]
        ∧ (nsid, name) ∈ [((1 : Nat), "Built-in")]
        ∧ ((3 : Nat), name) ∈ [((3 : Nat), "Built-in")] :=
  ⟨MonitorMap.fallback_happens_in_render_step.1 [(7, 3)] 5 (by decide),
   MonitorMap.fallback_happens_in_render_step.2 [(7, 1)] [(1, "Built-in")]
     [(3, "Built-in")] (7, 3) (by decide)⟩

/-- C2: classification by `(has_apps, is_focused)` is total and
deterministic — each of the four input classes yields exactly the one
directive listed below, the first three independent of the monitor mode; in
the `(no, no)` class single-monitor mode emits `drawing=off` while
multi-monitor mode emits a visible (`drawing=on`) dim placeholder-glyph
label with `background.drawing=off`. -/
theorem MainVariant.classification_total_and_exhaustive :
    ∀ (single : Bool) (ws icons bg d : String),
      MainVariant.classify_workspace single ws true true icons bg d =
        [("label", ws),
         ("label.color", "0xff1d2021"),
         ("icon", icons),
         ("icon.color", "0xff1d2021"),
         ("icon.drawing", "on"),
         ("drawing", "on"),
         ("background.drawing", "on"),
         ("background.color", bg),
         ("display", d)]
      ∧ MainVariant.classify_workspace single ws true false icons bg d =
        [("label", ws),
         ("label.color", "0xffffffff"),
         ("icon.color", "0xffffffff"),
         ("icon", icons),
         ("icon.drawing", "on"),
         ("drawing", "on"),
         ("background.drawing", "off"),
         ("display", d)]
      ∧ MainVariant.classify_workspace single ws false true icons bg d =
        [("label", " " ++ ws),
         ("label.color", "0xff1d2021"),
         ("icon.color", "0xff1d2021"),
         ("drawing", "on"),
         ("icon.drawing", "off"),
         ("background.drawing", "on"),
         ("background.color", bg),
         ("display", d)]
      ∧ MainVariant.classify_workspace true ws false false icons bg d =
        [("drawing", "off"),
         ("display", d)]
      ∧ MainVariant.classify_workspace false ws false false icons bg d =
        [("label", " " ++ ws),
         ("label.color", "0xffffffff"),
         ("icon.color", "0xffffffff"),
         ("drawing", "on"),
         ("icon.drawing", "off"),
         ("background.drawing", "off"),
         ("display", d)] := by
  intro single ws icons bg d
  refine ⟨?_, ?_, ?_, ?_, ?_⟩ <;> simp [MainVariant.classify_workspace]

/-- The state a non-debounced pass leaves behind: the previous-workspace
set is replaced by the current snapshot's workspace-id set; nothing else of
the state changes. -/
theorem Handlers.do_pass_fst (s : Handlers.DaemonState) (gcs : List String)
    (temp infos : List Aerospace.WorkspaceInfo) (exec : Nat → Bool) :
    (Handlers.do_pass s gcs temp infos exec).1 =
      { s with previous_workspaces := (infos.map (fun i => i.id)).dedup } := by
  rw [show (Handlers.do_pass s gcs temp infos exec).1 =
      { s with previous_workspaces :=
          ((infos.map Handlers.swap_info).map (fun i => i.id)).dedup }
    from rfl, List.map_map]
  rfl

/-- Membership in a pass's clear set is exactly membership in the previous
set minus the current snapshot's workspace ids. -/
theorem Handlers.do_pass_to_clear (s : Handlers.DaemonState)
    (gcs : List String) (temp infos : List Aerospace.WorkspaceInfo)
    (exec : Nat → Bool) (po : Handlers.PassOutput)
    (h : (Handlers.do_pass s gcs temp infos exec).2 = some po) :
    ∀ w, w ∈ po.to_clear ↔
      (w ∈ s.previous_workspaces ∧ w ∉ infos.map (fun i => i.id)) := by
  intro w
  have h2 := Option.some.inj h
  subst h2
  simp [List.mem_filter, List.elem_iff, List.mem_dedup, List.map_map,
    List.contains, Handlers.swap_info]

/-- The render directives a pass emits are those built from the snapshot
after the display-id swap. -/
theorem Handlers.do_pass_renders (s : Handlers.DaemonState)
    (gcs : List String) (temp infos : List Aerospace.WorkspaceInfo)
    (exec : Nat → Bool) (po : Handlers.PassOutput)
    (h : (Handlers.do_pass s gcs temp infos exec).2 = some po) :
    po.renders = Handlers.render_directives s.config gcs
      (infos.map Handlers.swap_info) := by
  have h2 := Option.some.inj h
  subst h2
  rfl

/-- A call of the handler that emits output took the non-debounced path, so
every call with the same state and timestamp — whatever its execute
outcomes — runs the full pass body after recording the timestamp. -/
theorem Handlers.handle_proceed (s : Handlers.DaemonState) (now : Nat)
    (gcs : List String) (temp infos : List Aerospace.WorkspaceInfo)
    (exec : Nat → Bool)
    (h : (Handlers.handle_workspace_refresh s now gcs temp infos exec).2 ≠
      none) :
    ∀ e2 : Nat → Bool,
      Handlers.handle_workspace_refresh s now gcs temp infos e2 =
        Handlers.do_pass { s with last_workspace_change := some now } gcs
          temp infos e2 := by
  intro e2
  unfold Handlers.handle_workspace_refresh at h ⊢
  cases hlc : s.last_workspace_change with
  | none => simp only [hlc]
  | some t =>
    simp only [hlc] at h ⊢
    by_cases hlt : now - t < 100
    · rw [if_pos hlt] at h
      simp at h
    · rw [if_neg hlt]

/-- Every render directive stems from one snapshot workspace and targets
that workspace's display. -/
theorem Handlers.mem_render_directives {cfg : Handlers.Config}
    {gcs : List String} {infos : List Aerospace.WorkspaceInfo}
    {d : Handlers.Directive}
    (hd : d ∈ Handlers.render_directives cfg gcs infos) :
    ∃ info ∈ infos, d.display = info.display_id
      ∧ d.item = "workspace." ++ info.id := by
  simp only [Handlers.render_directives, List.mem_filterMap] at hd
  obtain ⟨pws, hmem, hsome⟩ := hd
  cases hf : infos.find? (fun i => i.id == pws.2) with
  | none => rw [hf] at hsome; simp at hsome
  | some info =>
    rw [hf] at hsome
    have hsome2 : Handlers.Directive.mk info.display_id
        ("workspace." ++ pws.2)
        (Handlers.render_settings cfg gcs pws.1 info) = d :=
      Option.some.inj hsome
    subst hsome2
    refine ⟨info, List.mem_of_find?_eq_some hf, rfl, ?_⟩
    have hid : info.id = pws.2 := by
      have := List.find?_some hf
      simpa using this
    rw [hid]

/-- C1: for a pass that emits output (the snapshot read is total, so that
is every non-debounced pass), the clear set is exactly the previous set
minus the current snapshot's workspace-id set, the persisted previous set
afterwards equals the current set, and the resulting state is independent
of the per-display execute outcomes. -/
theorem Handlers.clear_set_and_previous_update (s : Handlers.DaemonState)
    (now : Nat) (gcs : List String)
    (temp infos : List Aerospace.WorkspaceInfo) (exec : Nat → Bool)
    (po : Handlers.PassOutput)
    (h : (Handlers.handle_workspace_refresh s now gcs temp infos exec).2 =
      some po) :
    (Handlers.handle_workspace_refresh s now gcs temp infos
        exec).1.previous_workspaces = (infos.map (fun i => i.id)).dedup
    ∧ (∀ w, w ∈ po.to_clear ↔
        (w ∈ s.previous_workspaces ∧ w ∉ infos.map (fun i => i.id)))
    ∧ (∀ e2 : Nat → Bool,
        (Handlers.handle_workspace_refresh s now gcs temp infos e2).1 =
          (Handlers.handle_workspace_refresh s now gcs temp infos exec).1) := by
  have hp := Handlers.handle_proceed s now gcs temp infos exec
    (by simp [h])
  refine ⟨?_, ?_, ?_⟩
  · rw [hp exec, Handlers.do_pass_fst]
  · rw [hp exec] at h
    exact Handlers.do_pass_to_clear _ gcs temp infos exec po h
  · intro e2
    rw [hp e2, hp exec]
    rfl

/-- C3: once a pass has been accepted at time `t1`, a second notification
less than 100 ms later is debounced — it returns with the state (previous
set and timestamp) completely untouched and emits nothing — while a second
notification 100 ms or later runs a full pass and records its own
timestamp; the accepted pass recorded `t1` as the last-accepted time. -/
theorem Handlers.debounce_100ms (s : Handlers.DaemonState) (t1 t2 : Nat)
    (g1 g2 : List String)
    (temp1 infos1 temp2 infos2 : List Aerospace.WorkspaceInfo)
    (e1 e2 : Nat → Bool)
    (h1 : (Handlers.handle_workspace_refresh s t1 g1 temp1 infos1 e1).2 ≠
      none)
    (_hle : t1 ≤ t2) :
    (Handlers.handle_workspace_refresh s t1 g1 temp1 infos1
        e1).1.last_workspace_change = some t1
    ∧ (t2 - t1 < 100 →
        Handlers.handle_workspace_refresh
            (Handlers.handle_workspace_refresh s t1 g1 temp1 infos1 e1).1
            t2 g2 temp2 infos2 e2 =
          ((Handlers.handle_workspace_refresh s t1 g1 temp1 infos1 e1).1,
            none))
    ∧ (100 ≤ t2 - t1 →
        (Handlers.handle_workspace_refresh
            (Handlers.handle_workspace_refresh s t1 g1 temp1 infos1 e1).1
            t2 g2 temp2 infos2 e2).2 ≠ none
        ∧ (Handlers.handle_workspace_refresh
            (Handlers.handle_workspace_refresh s t1 g1 temp1 infos1 e1).1
            t2 g2 temp2 infos2 e2).1.last_workspace_change = some t2) := by
  have hp1 := Handlers.handle_proceed s t1 g1 temp1 infos1 e1 h1
  set s1 := (Handlers.handle_workspace_refresh s t1 g1 temp1 infos1 e1).1
    with hdef
  have hs1 : s1.last_workspace_change = some t1 := by
    rw [hdef, hp1 e1, Handlers.do_pass_fst]
  refine ⟨hs1, ?_, ?_⟩
  · intro hlt
    unfold Handlers.handle_workspace_refresh
    simp only [hs1]
    rw [if_pos hlt]
  · intro hge
    unfold Handlers.handle_workspace_refresh
    simp only [hs1]
    rw [if_neg (by omega)]
    constructor
    · exact Option.ne_none_iff_isSome.mpr rfl
    · rw [Handlers.do_pass_fst]

/-- C9: every render directive a pass emits targets the display obtained
from the snapshot's display id by exchanging ids 2 and 3 and leaving every
other id unchanged; the pass model takes no display mapping at all, so the
Display Mapper's cache cannot influence this path. -/
theorem Handlers.render_display_swapped (s : Handlers.DaemonState)
    (now : Nat) (gcs : List String)
    (temp infos : List Aerospace.WorkspaceInfo) (exec : Nat → Bool)
    (po : Handlers.PassOutput) (d : Handlers.Directive)
    (h : (Handlers.handle_workspace_refresh s now gcs temp infos exec).2 =
      some po)
    (hd : d ∈ po.renders) :
    (∃ i ∈ infos, d.display = Handlers.swap_display i.display_id
      ∧ d.item = "workspace." ++ i.id)
    ∧ Handlers.swap_display 2 = 3
    ∧ Handlers.swap_display 3 = 2
    ∧ (∀ x, x ≠ 2 → x ≠ 3 → Handlers.swap_display x = x) := by
  have hp := Handlers.handle_proceed s now gcs temp infos exec
    (by simp [h])
  rw [hp exec] at h
  rw [Handlers.do_pass_renders _ gcs temp infos exec po h] at hd
  obtain ⟨info, hinfo, hdisp, hitem⟩ := Handlers.mem_render_directives hd
  rw [List.mem_map] at hinfo
  obtain ⟨i, hi, rfl⟩ := hinfo
  refine ⟨⟨i, hi, hdisp, hitem⟩, rfl, rfl, ?_⟩
  intro x h2 h3
  unfold Handlers.swap_display
  rw [if_neg h2, if_neg h3]

/-- Witness for C1 on the concrete inputs: the handler emits `poW` and the
conclusions hold there. -/
theorem Handlers.clear_set_and_previous_update_witness :
    (Handlers.handle_workspace_refresh Handlers.sW 0 Handlers.gcsW
        Handlers.infosW Handlers.infosW (fun _ => true)).2 =
      some Handlers.poW
    ∧ ((Handlers.handle_workspace_refresh Handlers.sW 0 Handlers.gcsW
          Handlers.infosW Handlers.infosW
          (fun _ => true)).1.previous_workspaces =
        (Handlers.infosW.map (fun i => i.id)).dedup
      ∧ (∀ w, w ∈ Handlers.poW.to_clear ↔
          (w ∈ Handlers.sW.previous_workspaces ∧
            w ∉ Handlers.infosW.map (fun i => i.id)))
      ∧ (∀ e2 : Nat → Bool,
          (Handlers.handle_workspace_refresh Handlers.sW 0 Handlers.gcsW
              Handlers.infosW Handlers.infosW e2).1 =
            (Handlers.handle_workspace_refresh Handlers.sW 0 Handlers.gcsW
              Handlers.infosW Handlers.infosW (fun _ => true)).1)) :=
  ⟨by decide,
   Handlers.clear_set_and_previous_update Handlers.sW 0 Handlers.gcsW
     Handlers.infosW Handlers.infosW (fun _ => true) Handlers.poW
     (by decide)⟩

/-- Witness for C3 on the concrete inputs: the first notification at 0 ms
proceeds; the conclusions (debounce at 50 ms, acceptance at ≥100 ms) hold
there. -/
theorem Handlers.debounce_100ms_witness :
    ((Handlers.handle_workspace_refresh Handlers.sW 0 Handlers.gcsW
        Handlers.infosW Handlers.infosW (fun _ => true)).2 ≠ none
      ∧ (0 : Nat) ≤ 50)
    ∧ ((Handlers.handle_workspace_refresh Handlers.sW 0 Handlers.gcsW
          Handlers.infosW Handlers.infosW
          (fun _ => true)).1.last_workspace_change = some 0
      ∧ ((50 : Nat) - 0 < 100 →
          Handlers.handle_workspace_refresh
              (Handlers.handle_workspace_refresh Handlers.sW 0 Handlers.gcsW
                Handlers.infosW Handlers.infosW (fun _ => true)).1
              50 Handlers.gcsW Handlers.infosW Handlers.infosW
              (fun _ => true) =
            ((Handlers.handle_workspace_refresh Handlers.sW 0 Handlers.gcsW
                Handlers.infosW Handlers.infosW (fun _ => true)).1, none))
      ∧ (100 ≤ (50 : Nat) - 0 →
          (Handlers.handle_workspace_refresh
              (Handlers.handle_workspace_refresh Handlers.sW 0 Handlers.gcsW
                Handlers.infosW Handlers.infosW (fun _ => true)).1
              50 Handlers.gcsW Handlers.infosW Handlers.infosW
              (fun _ => true)).2 ≠ none
          ∧ (Handlers.handle_workspace_refresh
              (Handlers.handle_workspace_refresh Handlers.sW 0 Handlers.gcsW
                Handlers.infosW Handlers.infosW (fun _ => true)).1
              50 Handlers.gcsW Handlers.infosW Handlers.infosW
              (fun _ => true)).1.last_workspace_change = some 50)) :=
  ⟨⟨by decide, by decide⟩,
   Handlers.debounce_100ms Handlers.sW 0 50 Handlers.gcsW Handlers.gcsW
     Handlers.infosW Handlers.infosW Handlers.infosW Handlers.infosW
     (fun _ => true) (fun _ => true) (by decide) (by decide)⟩

/-- Witness for C9 on the concrete inputs: the one render directive of the
witness pass targets display 3, the swap of its workspace's snapshot
display 2. -/
theorem Handlers.render_display_swapped_witness :
    ((Handlers.handle_workspace_refresh Handlers.sW 0 Handlers.gcsW
        Handlers.infosW Handlers.infosW (fun _ => true)).2 =
          some Handlers.poW
      ∧ Handlers.dW ∈ Handlers.poW.renders)
    ∧ ((∃ i ∈ Handlers.infosW,
          Handlers.dW.display = Handlers.swap_display i.display_id
          ∧ Handlers.dW.item = "workspace." ++ i.id)
      ∧ Handlers.swap_display 2 = 3
      ∧ Handlers.swap_display 3 = 2
      ∧ (∀ x, x ≠ 2 → x ≠ 3 → Handlers.swap_display x = x)) :=
  ⟨⟨by decide, by decide⟩,
   Handlers.render_display_swapped Handlers.sW 0 Handlers.gcsW
     Handlers.infosW Handlers.infosW (fun _ => true) Handlers.poW
     Handlers.dW (by decide) (by decide)⟩

end Theorems
